import Mathlib

/-!
# Verification of the sacs2abaqus parsing and reconciliation engine

This file gives a shallow embedding, in Lean 4, of the core of the
`sacs2abaqus` converter (the SACS fixed-column parser, the record model,
the structure aggregate and the geometric reconciliation helpers), and
settles a list of claims about that code.

Python numbers are modelled over `ℚ` (rationals) where the code only does
field decoding and scaling, and over `ℝ` where the code takes square roots
and inverse cosines (`geom3.py`, `helpers.OrderJoints`,
`SacsStructure.merge_small_members`).  Python's `False` failure sentinel
from `helpers.GetFloat` is modelled as `Option.none`; Python coerces
`False` to `0` in arithmetic, which is modelled by `pyNum`.  Exceptions
are modelled with `Except PyError`.
-/

/-- Python exceptions raised by the modelled code paths. -/
inductive PyError
  | importError (name : String)
  | attributeError (name : String)
  | assertionError (msg : String)
  | keyError (key : String)
  | indexError (what : String)
  | typeError (msg : String)
  deriving DecidableEq, Repr

/-- Python coerces the bool `False` (the `GetFloat` failure sentinel) to `0`
in arithmetic contexts (`False + x`, `False * x`).  `pyNum` applies that
coercion to a modelled `GetFloat` result. -/
def pyNum (o : Option ℚ) : ℚ := o.getD 0

/-- Python truthiness of a `GetFloat` result: `False` and `0.0` are falsy,
every other float is truthy. -/
def pyTruthy (o : Option ℚ) : Bool := o != none && o != some 0

/-- Numeric value of a list of decimal digit characters (most significant
first), as read by Python's float literal grammar. -/
def natOfDigits (ds : List Char) : Nat :=
  ds.foldl (fun a c => 10 * a + (c.toNat - 48)) 0

/-- Split a character sequence into its leading run of decimal digits and
the remainder. -/
def spanDigits : List Char → List Char × List Char
  | [] => ([], [])
  | c :: cs =>
    if c.isDigit then
      let (ds, rest) := spanDigits cs
      (c :: ds, rest)
    else ([], c :: cs)

/-- Exponent suffix of a Python float literal: either nothing, or
`(e|E) (+|-)? digits+`, ending the string.  `m` is the mantissa value. -/
def pyFloatExpTail (m : ℚ) : List Char → Option ℚ
  | [] => some m
  | c :: cs =>
    if c = 'e' ∨ c = 'E' then
      let (neg, cs2) : Bool × List Char :=
        match cs with
        | '+' :: t => (false, t)
        | '-' :: t => (true, t)
        | t => (false, t)
      let (ds, rest) := spanDigits cs2
      if ds.isEmpty ∨ ¬ rest.isEmpty then none
      else some (if neg then m / 10 ^ natOfDigits ds else m * 10 ^ natOfDigits ds)
    else none

/-- Unsigned part of a Python float literal:
`digits+ (. digits*)? exp?` or `. digits+ exp?`. -/
def pyFloatUnsigned (cs : List Char) : Option ℚ :=
  let (ip, r1) := spanDigits cs
  match r1 with
  | '.' :: r2 =>
    let (fp, r3) := spanDigits r2
    if ip.isEmpty ∧ fp.isEmpty then none
    else pyFloatExpTail ((natOfDigits ip : ℚ) + (natOfDigits fp : ℚ) / 10 ^ fp.length) r3
  | _ => if ip.isEmpty then none else pyFloatExpTail (natOfDigits ip : ℚ) r1

/-- Python's `float` on an already-stripped character sequence: an optional
sign followed by an unsigned float literal.  Returns `none` where Python
raises `ValueError`.  (Values are exact rationals; the spec reads the
original's binary floats "modulo floating point".) -/
def pyFloatChars : List Char → Option ℚ
  | '+' :: cs => pyFloatUnsigned cs
  | '-' :: cs => (pyFloatUnsigned cs).map Neg.neg
  | cs => pyFloatUnsigned cs

/-- Python `str.strip()`: remove whitespace from both ends. -/
def pyStrip (cs : List Char) : List Char :=
  ((cs.dropWhile Char.isWhitespace).reverse.dropWhile Char.isWhitespace).reverse

/-- From `helpers.py` lines 23-40, `GetFloat`: strip the field, take a leading
`-` off if present, replace every remaining `-` by `E-` (SACS writes
`1.23e-2` as `1.23-2`; `s.replace("-", "E-")` with a one-character pattern
rewrites each `-` to `E-`), re-attach the leading sign and parse; `None`
(Python `False`) on any parse error. -/
def GetFloat (s : String) : Option ℚ :=
  let t := pyStrip s.toList
  let (sgn, body) : List Char × List Char :=
    match t with
    | '-' :: rest => (['-'], rest)
    | _ => ([], t)
  pyFloatChars (sgn ++ body.flatMap fun c => if c = '-' then ['E', '-'] else [c])

/-!
## Geometry kernel (`geom3.py`) and quad winding correction (`helpers.OrderJoints`)

Coordinates are modelled over `ℝ`.  Deviations from CPython at degenerate
inputs (where the original raises `ZeroDivisionError` for zero-length
edges or `ValueError` for `acos` arguments pushed outside `[-1, 1]` by
rounding): Lean's `x / 0 = 0` and the total `Real.arccos` are used; no
claim below touches those inputs.
-/

/-- From `geom3.py` lines 5-9, `Vector3` (named `Vec3` here; Mathlib already has a `Vector3`): a 3-D vector of floats. -/
@[ext]

structure Vec3 where
  x : ℝ
  y : ℝ
  z : ℝ

/-- From `geom3.py` `Vector3.__add__`. -/
def Vec3.add (a b : Vec3) : Vec3 := ⟨a.x + b.x, a.y + b.y, a.z + b.z⟩

/-- From `geom3.py` `Vector3.__sub__`. -/
def Vec3.sub (a b : Vec3) : Vec3 := ⟨a.x - b.x, a.y - b.y, a.z - b.z⟩

/-- From `geom3.py` `Vector3.__mul__` / `__rmul__` (scalar multiple). -/
def Vec3.smul (r : ℝ) (a : Vec3) : Vec3 := ⟨r * a.x, r * a.y, r * a.z⟩

/-- From `geom3.py` `Vector3.dot`. -/
def Vec3.dot (a b : Vec3) : ℝ := a.x * b.x + a.y * b.y + a.z * b.z

/-- From `geom3.py` `Vector3.length`: `sqrt(self.dot(self))`. -/
noncomputable def Vec3.length (a : Vec3) : ℝ := Real.sqrt (a.dot a)

/-- From `geom3.py` `Vector3.normalise`: `self / self.length()`, i.e.
`(1.0 / length) * self`. -/
noncomputable def Vec3.normalise (a : Vec3) : Vec3 :=
  Vec3.smul (1 / a.length) a

/-- From `helpers.py` lines 42-56, `OrderJoints`: given 4 joints, compute the
angles at joint 1 between the local x axis (joint1→joint2, normalised) and
the directions to joints 3 and 4; if the angle to joint 3 exceeds the
angle to joint 4, emit the joints in order `[0, 1, 3, 2]`, else unchanged.
`none` models the `ValueError` Python raises when unpacking a list whose
length is not 4. -/
noncomputable def OrderJoints (jlist : List Vec3) : Option (List Vec3) :=
  match jlist with
  | [j1, j2, j3, j4] =>
    let localx := (j2.sub j1).normalise
    let j3ang := Real.arccos (localx.dot (j3.sub j1) / (j3.sub j1).length)
    let j4ang := Real.arccos (localx.dot (j4.sub j1) / (j4.sub j1).length)
    some (if j3ang > j4ang then [j1, j2, j4, j3] else [j1, j2, j3, j4])
  | _ => none

/-- Modelled from the spec's words (§4.3, §8.5): the 2-D counter-clockwise
orientation predicate for the axis-aligned-plane segment-intersection test,
written for plates lying in the global XY plane. -/
def orient2 (p q r : Vec3) : ℝ :=
  (q.x - p.x) * (r.y - p.y) - (q.y - p.y) * (r.x - p.x)

/-- Modelled from the spec's words: segments `p q` and `r s` (in the XY
plane) properly cross — each segment's endpoints lie strictly on opposite
sides of the other segment's line. -/
def properCross (p q r s : Vec3) : Prop :=
  orient2 p q r * orient2 p q s < 0 ∧ orient2 r s p * orient2 r s q < 0

/-- Modelled from the spec's words: the 4-node shell element emitted with
node order `a b c d` self-intersects, i.e. one of its two pairs of
non-adjacent edges (`ab`,`cd`) or (`bc`,`da`) crosses. -/
def quadSelfIntersects (a b c d : Vec3) : Prop :=
  properCross a b c d ∨ properCross b c d a

/-!
## The `CSys` name (`sacs_cards.py` line 6 vs `geom3.py`)

`geom3.py` binds exactly two names at module level: the classes `Vector3`
(line 5) and `BeamCSys` (line 66); `BeamCSys`'s factory method is
`from_sacs_points`, and no class named `CSys` (nor any `from_beam_ends`)
exists anywhere in the repository.  `sacs_cards.py` line 6 nevertheless
executes `from .geom3 import CSys, Vector3`, and `MEMBER.local_csys`
(lines 374-380) evaluates `CSys.from_beam_ends(start, end)` while
`PLATE.local_csys` (lines 422-427) evaluates `CSys(local_x, local_y,
local_z)`.  Python resolves such an import by looking the requested name
up in the imported module's namespace and raising `ImportError` when it is
absent; the lookups below model exactly that binding (or its absence).
-/

/-- The coordinate frame a `CSys` value would carry (three axis vectors),
were the class to exist. -/
structure CSysFrame where
  x : Vec3
  y : Vec3
  z : Vec3

/-- Names bound at module level by `geom3.py`: its two classes. -/
def geom3ModuleNames : List String := ["Vector3", "BeamCSys"]

/-- The value `geom3.py` binds to the name `CSys`, as a two-point
constructor (the `CSys.from_beam_ends(start, end)` form used by
`MEMBER.local_csys`): there is none — `geom3.py` defines only `Vector3`
and `BeamCSys` (whose factory is `from_sacs_points`). -/
def geom3CSysFromBeamEnds : Option (Vec3 → Vec3 → CSysFrame) := none

/-- The value `geom3.py` binds to the name `CSys`, as a three-axis
constructor (the `CSys(local_x, local_y, local_z)` form used by
`PLATE.local_csys`): there is none. -/
def geom3CSysOfAxes : Option (Vec3 → Vec3 → Vec3 → CSysFrame) := none

/-- From `sacs_cards.py` lines 374-380, `MEMBER.local_csys`: resolve the joint
endpoints and evaluate `CSys.from_beam_ends(start, end)`.  The name `CSys`
has no binding (`from .geom3 import CSys` fails), so the evaluation raises
instead of producing a frame; the chord-angle rotation on lines 378-379
sits beyond the failing call and is unreachable. -/
def memberLocalCsys (start stop : Vec3) : Except PyError CSysFrame :=
  match geom3CSysFromBeamEnds with
  | none => Except.error (PyError.importError "CSys")
  | some fromBeamEnds => Except.ok (fromBeamEnds start stop)

/-- From `geom3.py` `Vector3.cross`. -/
def Vec3.cross (a b : Vec3) : Vec3 :=
  ⟨a.y * b.z - a.z * b.y, a.z * b.x - a.x * b.z, a.x * b.y - a.y * b.x⟩

/-- From `sacs_cards.py` lines 422-427, `PLATE.local_csys`: form the local axes
from the three joint position vectors and evaluate
`CSys(local_x, local_y, local_z)`; the name `CSys` has no binding. -/
def plateLocalCsys (ja jb jc : Vec3) : Except PyError CSysFrame :=
  let localx := jb.sub ja
  let localy0 := jc.sub ja
  let localz := localx.cross localy0
  let localy := localz.cross localx
  match geom3CSysOfAxes with
  | none => Except.error (PyError.importError "CSys")
  | some ofAxes => Except.ok (ofAxes localx localy localz)

/-- From `sacs_cards.py` `SacsStructure.to_dict` evaluates `mem.local_csys` for
every member and `pl.local_csys` for every plate; modelled on the joint
position vectors of the members and plates of the structure.  (Since the
defining module never finishes importing, even this reduced view can only
be reached through the failing `CSys` binding whenever a member or plate
is present.) -/
def structLocalFrames (memberEnds : List (Vec3 × Vec3))
    (plateCorners : List (Vec3 × Vec3 × Vec3)) : Except PyError (List CSysFrame) := do
  let mut out := []
  for e in memberEnds do
    let f ← memberLocalCsys e.1 e.2
    out := f :: out
  for p in plateCorners do
    let f ← plateLocalCsys p.1 p.2.1 p.2.2
    out := f :: out
  pure out

/-!
## Python dicts, load records and `LCOMB.to_basic` (`sacs_cards.py`)
-/

/-- A Python `dict` keyed by strings, modelled as an insertion-ordered
association list: lookup scans for the key, overwriting keeps the original
position, new keys append. -/
def dictGet {α : Type} (d : List (String × α)) (k : String) : Option α :=
  (d.find? (fun p => p.1 == k)).map (·.2)

/-- Python `d[k] = v` on a Python dict. -/
def dictInsert {α : Type} (d : List (String × α)) (k : String) (v : α) :
    List (String × α) :=
  if (d.find? (fun p => p.1 == k)).isSome then
    d.map (fun p => if p.1 == k then (k, v) else p)
  else d ++ [(k, v)]

/-- In-place update of the value stored under `k` (no-op when absent). -/
def dictMod {α : Type} (d : List (String × α)) (k : String) (f : α → α) :
    List (String × α) :=
  d.map (fun p => if p.1 == k then (p.1, f p.2) else p)

/-- From `sacs_cards.py` lines 477-513, `LOAD`: one decoded load line, a tagged
union over the recognised `(load_csys, load_type)` pairs.  `joint` carries
the six force/moment components (kN→N scaled), `beam` the two line-load
components, `pressure` the single scalar. -/
inductive LOADrec
  | joint (joint : String) (load : List ℚ) (remarks : String)
  | beam (dirn : String) (beam : String) (startOffset loadLength : ℚ)
      (load : List ℚ) (remarks : String)
  | pressure (plate : String) (load : ℚ) (remarks : String)
  deriving DecidableEq, Repr

/-- From `sacs_cards.py` lines 515-522, `LOAD.scale`: deep-copy the load and
multiply — component-wise for joint and beam loads, the scalar for
pressures. -/
def LOADrec.scale (l : LOADrec) (factor : ℚ) : LOADrec :=
  match l with
  | .joint j ld r => .joint j (ld.map (fun c => factor * c)) r
  | .beam d b so ll ld r => .beam d b so ll (ld.map (fun c => factor * c)) r
  | .pressure p ld r => .pressure p (ld * factor) r

/-- From `sacs_cards.py` lines 466-474, `LOADCASE`: a named ordered list of
loads with a free-text description. -/
structure LOADCASE where
  description : String
  loads : List LOADrec
  deriving DecidableEq, Repr

/-- From `sacs_cards.py` lines 430-448, `LCOMB`: the accumulated
`(case name, factor)` pairs; factors are raw `GetFloat` results. -/
structure LCOMB where
  loadcases : List (String × Option ℚ)
  deriving DecidableEq, Repr

/-- One iteration of the `LCOMB.to_basic` loop (lines 454-462): a
`(lc, factor)` pair contributes the scaled loads of the basic case `lc`
when `lc in loadcases`, else the scaled loads of the recursively flattened
combination when `lc in lcombs`, else nothing (a warning is logged). -/
def lcombEntryLoads (lcs : List (String × LOADCASE))
    (lcombs : List (String × LCOMB)) (recur : LCOMB → Option LOADCASE)
    (p : String × Option ℚ) : Option (List LOADrec) :=
  match dictGet lcs p.1 with
  | some base => some (base.loads.map (fun ld => ld.scale (pyNum p.2)))
  | none =>
    match dictGet lcombs p.1 with
    | some sub => (recur sub).map (fun s => s.loads.map (fun ld => ld.scale (pyNum p.2)))
    | none => some []

/-- The `to_basic` loop over all `(lc, factor)` pairs, appending each
contribution in order. -/
def lcombEntriesLoads (lcs : List (String × LOADCASE))
    (lcombs : List (String × LCOMB)) (recur : LCOMB → Option LOADCASE) :
    List (String × Option ℚ) → Option (List LOADrec)
  | [] => some []
  | p :: rest => do
    let head ← lcombEntryLoads lcs lcombs recur p
    let tail ← lcombEntriesLoads lcs lcombs recur rest
    pure (head ++ tail)

/-- From `sacs_cards.py` lines 450-463, `LCOMB.to_basic`, with an explicit
recursion-depth fuel standing in for Python's unbounded call stack:
`none` models non-termination / stack exhaustion, never reached on
acyclic inputs given enough fuel (`toBasic_acyclic_flattens`). -/
def toBasic (lcs : List (String × LOADCASE)) (lcombs : List (String × LCOMB)) :
    Nat → LCOMB → Option LOADCASE
  | 0, _ => none
  | fuel + 1, self =>
    (lcombEntriesLoads lcs lcombs (toBasic lcs lcombs fuel) self.loadcases).map
      (fun ls => ⟨"", ls⟩)

/-- A chain of combination references as resolved by `to_basic`: from a
combination, an entry either names a basic load case directly (with its
coerced factor), or steps — exactly when the name is not a basic case but
is a combination — into that combination, multiplying factors. -/
inductive ChainTo (lcs : List (String × LOADCASE))
    (lcombs : List (String × LCOMB)) : LCOMB → ℚ → String → Prop
  | direct (self : LCOMB) (name : String) (factor : Option ℚ) (base : LOADCASE) :
      (name, factor) ∈ self.loadcases → dictGet lcs name = some base →
      ChainTo lcs lcombs self (pyNum factor) name
  | step (self : LCOMB) (name : String) (factor : Option ℚ) (sub : LCOMB)
      (g : ℚ) (basic : String) :
      (name, factor) ∈ self.loadcases → dictGet lcs name = none →
      dictGet lcombs name = some sub →
      ChainTo lcs lcombs sub g basic →
      ChainTo lcs lcombs self (pyNum factor * g) basic

/-- The load-combination reference graph is acyclic, witnessed by a rank
function that strictly decreases along each reference resolved through the
`lcombs` branch of `to_basic`. -/
def LcombsRanked (lcs : List (String × LOADCASE))
    (lcombs : List (String × LCOMB)) (rank : String → Nat) : Prop :=
  ∀ q ∈ lcombs, ∀ p ∈ q.2.loadcases,
    dictGet lcs p.1 = none → (dictGet lcombs p.1).isSome →
      rank p.1 < rank q.1

/-- Witness data for `toBasic_acyclic_flattens`: one basic case `CASE1`
holding a joint load at `J`, a combination `C2 = 2.0 × CASE1` and a nested
combination `C1 = 3.0 × C2`. -/
def demoLcs : List (String × LOADCASE) :=
  [("CASE1", ⟨"", [LOADrec.joint "J" [10, 0, 0, 0, 0, 0] ""]⟩)]

/-- Witness combinations: `C1` references `C2` references `CASE1`. -/
def demoLcombs : List (String × LCOMB) :=
  [("C2", ⟨[("CASE1", some 2)]⟩), ("C1", ⟨[("C2", some 3)]⟩)]

/-- Rank function witnessing acyclicity of `demoLcombs`. -/
def demoRank : String → Nat := fun n => if n = "C1" then 1 else 0

/-!
## The load report (`inp_writer.py` `write_loads`, lines 259-299)
-/

/-- The source `write_loads` reads `l.force[d]` (line 274) and `l.force[i]` (line 288),
but the `LOAD` class of `sacs_cards.py` binds `load`, `joint`/`beam`/`plate`,
`type` and `remarks` — never `force` (that attribute belonged to the `LOAD`
class of the legacy `convert_SACSv1_noDialog.py` script, lines 236-243).
The attribute lookup therefore raises `AttributeError` on every load. -/
def LOADrec.force (_l : LOADrec) : Except PyError (List ℚ) :=
  Except.error (PyError.attributeError "force")

/-- The source `write_loads` line 284 reads `l.joint`: bound only on joint loads
(beam loads bind `beam`, pressures bind `plate`). -/
def LOADrec.jointName : LOADrec → Except PyError String
  | .joint j _ _ => Except.ok j
  | .beam _ _ _ _ _ _ => Except.error (PyError.attributeError "joint")
  | .pressure _ _ _ => Except.error (PyError.attributeError "joint")

/-- The intended list of load components at `write_loads`'s read sites: the
`load` attribute the `LOAD` class actually stores (`pressure` loads store a
bare float, which Python could not index). -/
def LOADrec.loadComponents : LOADrec → Except PyError (List ℚ)
  | .joint _ ld _ => Except.ok ld
  | .beam _ _ _ _ ld _ => Except.ok ld
  | .pressure _ _ _ => Except.error (PyError.typeError "float is not subscriptable")

/-- The source `write_loads` lines 283-288: accumulate one referenced case's loads
into the combination's `loadset` — create the six-component slot on first
sight of a joint, then add `l.force[i] * factor` component-wise. -/
def combLoadsetLoads (getComponents : LOADrec → Except PyError (List ℚ))
    (factor : Option ℚ) :
    List (String × List ℚ) → List LOADrec → Except PyError (List (String × List ℚ))
  | acc, [] => Except.ok acc
  | acc, l :: rest => do
    let j ← l.jointName
    let acc1 := if (dictGet acc j).isSome then acc
      else dictInsert acc j [0, 0, 0, 0, 0, 0]
    let fs ← getComponents l
    let acc2 := dictMod acc1 j
      (fun cur => List.zipWith (fun a b => a + b * pyNum factor) cur fs)
    combLoadsetLoads getComponents factor acc2 rest

/-- The source `write_loads` lines 280-288: loop over the combination's
`(case, factor)` pairs; only names found among the basic load cases
contribute (combination references are not recursed into here). -/
def combLoadset (getComponents : LOADrec → Except PyError (List ℚ))
    (lcs : List (String × LOADCASE)) :
    List (String × List ℚ) → List (String × Option ℚ) →
      Except PyError (List (String × List ℚ))
  | acc, [] => Except.ok acc
  | acc, (nm, factor) :: rest =>
    match dictGet lcs nm with
    | some base => do
      let acc2 ← combLoadsetLoads getComponents factor acc base.loads
      combLoadset getComponents lcs acc2 rest
    | none => combLoadset getComponents lcs acc rest

/-- The `loadset` `write_loads` computes for one load combination, as the
code stands (reading `l.force`). -/
def writeLoadsCombination (lcs : List (String × LOADCASE)) (cmb : LCOMB) :
    Except PyError (List (String × List ℚ)) :=
  combLoadset LOADrec.force lcs [] cmb.loadcases

/-- The same loop reading the `load` attribute the `LOAD` class actually
stores — the intent evidenced by the legacy script (where the attribute
was named `force`) and by `LOAD.scale`. -/
def writeLoadsCombinationIntended (lcs : List (String × LOADCASE)) (cmb : LCOMB) :
    Except PyError (List (String × List ℚ)) :=
  combLoadset LOADrec.loadComponents lcs [] cmb.loadcases

/-- The claim's load cases: `CASE1` holds `[10,0,0,0,0,0]` at joint `J`,
`CASE2` holds `[0,0,5,0,0,0]` at the same joint. -/
def c4Loadcases : List (String × LOADCASE) :=
  [("CASE1", ⟨"", [LOADrec.joint "J" [10, 0, 0, 0, 0, 0] ""]⟩),
   ("CASE2", ⟨"", [LOADrec.joint "J" [0, 0, 5, 0, 0, 0] ""]⟩)]

/-- The claim's combination `{(CASE1, 2.0), (CASE2, -1.0)}`. -/
def c4Comb : LCOMB := ⟨[("CASE1", some 2), ("CASE2", some (-1))]⟩

/-!
## Fixed-column record model and `SacsStructure.parse_sacs_file`
(`sacs_cards.py`)

Lines are padded to 80 columns before slicing (`parse_sacs_file` line
604); `pySlice l a b` is Python's `l[a:b]` on the padded line.  Numeric
fields decoded with `GetFloat` keep the `Option ℚ` sentinel where the code
stores the raw result, and are coerced with `pyNum` where the code
immediately does arithmetic on the result (Python coerces `False` to 0).
-/

/-- Python `l[a:b]`. -/
def pySlice (l : String) (a b : Nat) : String :=
  ((l.toList.drop a).take (b - a)).asString

/-- Python `str.rstrip()`. -/
def pyRstripStr (s : String) : String :=
  (s.toList.reverse.dropWhile Char.isWhitespace).reverse.asString

/-- Python `str.strip()` returning a `String`. -/
def pyStripStr (s : String) : String := (pyStrip s.toList).asString

/-- The source `parse_sacs_file` line 604: right-strip and pad every line to 80
columns with spaces. -/
def pad80 (raw : String) : String :=
  let r := pyRstripStr raw
  r ++ String.mk (List.replicate (80 - r.length) ' ')

/-- Python `int()` applied to a float: truncation toward zero (`int(False)`
is 0). -/
def pyInt (q : ℚ) : ℤ := if 0 ≤ q then q.floor else -((-q).floor)

/-- From `helpers.py` lines 6-20, `memberMap`: SACS section codes → target beam
section taxonomy. -/
def memberMap : List (String × String) :=
  [("TUB", "PIPE"), ("WF ", "I"), ("WFC", "I"), ("PGB", "BOX"), ("BOX", "BOX"),
   ("PRI", "ARBITRARY"), ("PLG", "I"), ("TEE", "TEE"), ("CHL", "CHL"),
   ("ANG", "L"), ("CON", "CON"), ("SCY", "PIPE"), ("SBX", "BOX")]

/-- The source `SECT.__init__` stiffness overrides, e.g. `GetFloat(l[18:24]) * 1e-4 or
None` (lines 31-34): the product is `0.0` both when the field failed to
parse (`False * 1e-4`) and when it parsed as zero, and `0.0 or None` is
`None` — so `none` here conflates "absent" with "zero". -/
def orNoneScaled (s : String) (u : ℚ) : Option ℚ :=
  if pyNum (GetFloat s) * u = 0 then none else some (pyNum (GetFloat s) * u)

/-- From `sacs_cards.py` lines 11-52, `SECT`: `known` is the branch where
`l[15:18]` is a recognised shape code (`F` is only bound for
PLG/TEE/CHL/ANG/CON, hence the outer `Option`; the inner `Option` is the
raw `GetFloat` sentinel); `unknown` is the `self.sect = False` branch,
which binds nothing else; `fromGrup` is `SECT._from_grup` (sect `"PIPE"`,
`AX`/`J`/`IY`/`IZ` `None`, `A`/`B` from the group's OD/thickness, `C`
bound to `False`, which Python compares equal to `0.0` at every use, and
no `D`/`E`/`F` at all). -/
inductive SECT
  | known (ID : String) (sect : String) (AX J IY IZ : Option ℚ) (A B C D E : ℚ)
      (F : Option (Option ℚ))
  | unknown (ID : String)
  | fromGrup (ID : String) (A B : ℚ)
  deriving DecidableEq, Repr

/-- The `ID` attribute of a decoded section. -/
def SECT.sid : SECT → String
  | .known i _ _ _ _ _ _ _ _ _ _ _ => i
  | .unknown i => i
  | .fromGrup i _ _ => i

/-- The `sect` shape attribute of a decoded section (`none` models the
`False` stored for unrecognised shape codes). -/
def SECT.tag : SECT → Option String
  | .known _ s _ _ _ _ _ _ _ _ _ _ => some s
  | .unknown _ => none
  | .fromGrup _ _ _ => some "PIPE"

/-- The source `SECT.__init__` on a `SECT` card line (lines 24-51). -/
def SECT.ofLine (l : String) : SECT :=
  let id := pyStripStr (pySlice l 5 12)
  let code := pySlice l 15 18
  match dictGet memberMap code with
  | some shape =>
    .known id shape
      (orNoneScaled (pySlice l 18 24) (1 / 10000))
      (orNoneScaled (pySlice l 24 32) (1 / 100000000))
      (orNoneScaled (pySlice l 32 40) (1 / 100000000))
      (orNoneScaled (pySlice l 40 48) (1 / 100000000))
      (pyNum (GetFloat (pySlice l 49 55)) * (1 / 100))
      (pyNum (GetFloat (pySlice l 55 60)) * (1 / 100))
      (pyNum (GetFloat (pySlice l 60 66)) * (1 / 100))
      (if shape = "ARBITRARY" then pyNum (GetFloat (pySlice l 66 71)) * (1 / 10000)
        else pyNum (GetFloat (pySlice l 66 71)) * (1 / 100))
      (if shape = "ARBITRARY" then pyNum (GetFloat (pySlice l 71 76)) * (1 / 10000)
        else pyNum (GetFloat (pySlice l 71 76)) * (1 / 100))
      (if code = "PLG" ∨ code = "TEE" ∨ code = "CHL" ∨ code = "ANG" ∨ code = "CON"
        then some (GetFloat (pySlice l 76 80)) else none)
  | none => .unknown id

/-- From `sacs_cards.py` lines 223-240, `PSTIF`: a plate-stiffener section;
only `ANG` stiffeners are accepted, any other type raises
`AssertionError("Only ANG stiffeners are currently supported")`. -/
structure PSTIF where
  sect : String
  ID : String
  A : ℚ
  B : ℚ
  C : ℚ
  D : ℚ
  deriving DecidableEq, Repr

/-- The source `PSTIF.__init__` on a `PSTIF` card line. -/
def PSTIF.ofLine (l : String) : Except PyError PSTIF :=
  let t := pyStripStr (pySlice l 6 9)
  if t = "ANG" then
    Except.ok
      ⟨(dictGet memberMap t).getD "", pyStripStr (pySlice l 10 17),
        pyNum (GetFloat (pySlice l 20 27)) * (1 / 100),
        pyNum (GetFloat (pySlice l 34 41)) * (1 / 100),
        pyNum (GetFloat (pySlice l 41 48)) * (1 / 100),
        pyNum (GetFloat (pySlice l 55 62)) * (1 / 100)⟩
  else Except.error (PyError.assertionError "Only ANG stiffeners are currently supported")

/-- A value of the `sects` dict: either a `SECT` or a `PSTIF` (a subclass
of `SECT` in the original). -/
inductive SECTENTRY
  | sect (s : SECT)
  | pstif (p : PSTIF)
  deriving DecidableEq, Repr

/-- From `sacs_cards.py` lines 305-332, `GRUP` (the `section` attribute is named
`sectionRef` here because `section` is a Lean keyword; `taper` is `none`
for the Python `False` branch; raw `GetFloat` results keep the sentinel). -/
structure GRUP where
  ID : String
  taper : Option String
  sectionRef : String
  redesign : String
  OD : ℚ
  thickness : ℚ
  gap : String
  E : ℚ
  G : ℚ
  FY : ℚ
  memberClass : String
  jointThickness : Option ℚ
  KY : Option ℚ
  KZ : Option ℚ
  spacing : Option ℚ
  shearMod : Option ℚ
  flooding : String
  density : ℚ
  segLength : Option ℚ
  deriving DecidableEq, Repr

/-- The source `GRUP.__init__` on a `GRUP` card line. -/
def GRUP.ofLine (l : String) : GRUP :=
  { ID := pyStripStr (pySlice l 5 8)
    taper := if pySlice l 8 9 = " " then none else some (pySlice l 8 9)
    sectionRef := pyStripStr (pySlice l 9 16)
    redesign := pySlice l 16 17
    OD := pyNum (GetFloat (pySlice l 17 23)) * (1 / 100)
    thickness := pyNum (GetFloat (pySlice l 23 29)) * (1 / 100)
    gap := pySlice l 29 30
    E := pyNum (GetFloat (pySlice l 30 35)) * 10000000000
    G := pyNum (GetFloat (pySlice l 35 40)) * 10000000000
    FY := pyNum (GetFloat (pySlice l 40 45)) * 10000000
    memberClass := pySlice l 46 47
    jointThickness := GetFloat (pySlice l 47 51)
    KY := GetFloat (pySlice l 51 55)
    KZ := GetFloat (pySlice l 55 59)
    spacing := GetFloat (pySlice l 59 64)
    shearMod := GetFloat (pySlice l 64 69)
    flooding := pySlice l 69 70
    density := pyNum (GetFloat (pySlice l 70 76)) * 1000
    segLength := GetFloat (pySlice l 76 80) }

/-- The source `SECT._from_grup` (lines 12-21), used when a `GRUP` line carries no
named section: a synthetic `PIPE` section from the group's OD/thickness. -/
def SECT.ofGrup (g : GRUP) : SECT := .fromGrup g.ID g.OD g.thickness

/-- From `sacs_cards.py` lines 259-302, `PGRUP` (plate group; stiffener fields
are nulled together when no stiffener section is named, lines 287-292). -/
structure PGRUP where
  ID : String
  NA : String
  thickness : ℚ
  sect : String
  E : ℚ
  v : Option ℚ
  FY : ℚ
  Zoffset : ℚ
  stiffener_section : Option String
  stiffener_spacing : Option ℚ
  stiffener_direction : Option String
  stiffener_placement : Option String
  density : ℚ
  deriving DecidableEq, Repr

/-- The source `PGRUP.__init__` on a `PGRUP` card line. -/
def PGRUP.ofLine (l : String) : PGRUP :=
  let ss := pyStripStr (pySlice l 41 48)
  { ID := pyStripStr (pySlice l 6 9)
    NA := pySlice l 9 10
    thickness := pyNum (GetFloat (pySlice l 10 16)) * (1 / 100)
    sect := pySlice l 16 17
    E := pyNum (GetFloat (pySlice l 17 23)) * 10000000000
    v := GetFloat (pySlice l 23 29)
    FY := pyNum (GetFloat (pySlice l 29 35)) * 10000000
    Zoffset := pyNum (GetFloat (pySlice l 35 41)) * (1 / 100)
    stiffener_section := if ss = "" then none else some ss
    stiffener_spacing := if ss = "" then none
      else some (pyNum (GetFloat (pySlice l 48 54)) * (1 / 100))
    stiffener_direction := if ss = "" then none else some (pySlice l 54 55)
    stiffener_placement := if ss = "" then none else some (pySlice l 55 56)
    density := pyNum (GetFloat (pySlice l 72 80)) * 1000 }

/-- From `sacs_cards.py` lines 344-372, `MEMBER` (the raw string attributes are
kept as the slices the code stores; `chordAngle` keeps the raw `GetFloat`
sentinel because the code later tests its truthiness). -/
structure MEMBER where
  offset : String
  jointA : String
  jointB : String
  ID : String
  vertical : Bool
  ABQID : ℤ
  addData : String
  group : String
  stressOutput : String
  gap : String
  fixityA : List Bool
  fixityB : List Bool
  chordAngle : Option ℚ
  Zref : String
  flood : String
  KorL : String
  thickness : String
  KY : String
  KZ : String
  unbracedLength : String
  density : ℚ
  segments : ℤ
  effectiveDiameter : ℚ
  deriving DecidableEq, Repr

/-- The source `MEMBER.__init__` on a `MEMBER` card line. -/
def MEMBER.ofLine (l : String) : MEMBER :=
  let ja := pyStripStr (pySlice l 7 11)
  let jb := pyStripStr (pySlice l 11 15)
  { offset := pySlice l 6 7
    jointA := ja
    jointB := jb
    ID := ja ++ jb
    vertical := false
    ABQID := -1
    addData := pySlice l 15 16
    group := pyStripStr (pySlice l 16 19)
    stressOutput := pySlice l 19 21
    gap := pySlice l 21 22
    fixityA := (pySlice l 22 28).toList.map (fun f => f == '1')
    fixityB := (pySlice l 28 34).toList.map (fun f => f == '1')
    chordAngle := GetFloat (pySlice l 35 41)
    Zref := pySlice l 41 45
    flood := pySlice l 45 46
    KorL := pySlice l 46 47
    thickness := pySlice l 47 51
    KY := pySlice l 51 55
    KZ := pySlice l 55 59
    unbracedLength := pySlice l 59 64
    density := pyNum (GetFloat (pySlice l 64 70)) * 1000
    segments := pyInt (pyNum (GetFloat (pySlice l 70 72)))
    effectiveDiameter := pyNum (GetFloat (pySlice l 72 78)) * (1 / 100) }

/-- From `sacs_cards.py` lines 383-410, `PLATE` (its `ID` is the unstripped
`l[6:10]`; `v` keeps the raw `GetFloat` sentinel). -/
structure PLATE where
  ID : String
  ABQID : ℤ
  jointA : String
  jointB : String
  jointC : String
  jointD : String
  group : String
  SK : String
  thickness : ℚ
  offsetOption : String
  E : ℚ
  v : Option ℚ
  FY : ℚ
  density : ℚ
  remarks : String
  deriving DecidableEq, Repr

/-- The source `PLATE.__init__` on a `PLATE` card line. -/
def PLATE.ofLine (l : String) : PLATE :=
  { ID := pySlice l 6 10
    ABQID := -1
    jointA := pyStripStr (pySlice l 11 15)
    jointB := pyStripStr (pySlice l 15 19)
    jointC := pyStripStr (pySlice l 19 23)
    jointD := pyStripStr (pySlice l 23 27)
    group := pyStripStr (pySlice l 27 30)
    SK := pySlice l 30 32
    thickness := pyNum (GetFloat (pySlice l 32 38)) * (1 / 100)
    offsetOption := pySlice l 42 43
    E := pyNum (GetFloat (pySlice l 47 54)) * 10000000000
    v := GetFloat (pySlice l 54 59)
    FY := pyNum (GetFloat (pySlice l 59 64)) * 10000000
    density := pyNum (GetFloat (pySlice l 69 74)) * 1000
    remarks := pySlice l 74 80 }

/-- From `sacs_cards.py` lines 541-543, `Spring`: the joint elastic-spring
parameters (6 rates, comments, two orientation joints). -/
structure Spring where
  rates : List ℚ
  comments : String
  joint2 : String
  joint3 : String
  deriving DecidableEq, Repr

/-- A joint coordinate as computed by `JOINT.__init__` lines 551-553:
`GetFloat(main) + GetFloat(off) * 1e-2`, with Python's `False`-to-`0`
coercion applied to either failed decode. -/
def jointCoord (main off : String) : ℚ :=
  pyNum (GetFloat main) + pyNum (GetFloat off) * (1 / 100)

/-- From `sacs_cards.py` lines 546-576, `JOINT` (the `spring` attribute exists
only once an `ELASTI` line has been absorbed). -/
structure JOINT where
  ABQID : ℕ
  ID : String
  x : ℚ
  y : ℚ
  z : ℚ
  fixity : List Bool
  remarks : String
  spring : Option Spring
  deriving DecidableEq, Repr

/-- The source `JOINT.__init__` on a `JOINT` geometry line with the next node id. -/
def JOINT.ofLine (l : String) (abqn : ℕ) : JOINT :=
  { ABQID := abqn
    ID := pyStripStr (pySlice l 6 10)
    x := jointCoord (pySlice l 11 18) (pySlice l 32 39)
    y := jointCoord (pySlice l 18 25) (pySlice l 39 46)
    z := jointCoord (pySlice l 25 32) (pySlice l 46 53)
    fixity := (pySlice l 54 60).toList.map (fun f => f == '1')
    remarks := pySlice l 61 69
    spring := none }

/-- The source `JOINT.Elastic` (lines 560-573): absorb an `ELASTI` spring-definition
line into an existing joint (displacement rates kg/cm→N/m ×1e3,
rotational rates kg·cm/rad→N·m/rad ×0.1). -/
def JOINT.elastic (j : JOINT) (l : String) : JOINT :=
  let sp : Spring :=
    { rates :=
        [pyNum (GetFloat (pySlice l 11 18)) * 1000,
         pyNum (GetFloat (pySlice l 18 25)) * 1000,
         pyNum (GetFloat (pySlice l 25 32)) * 1000,
         pyNum (GetFloat (pySlice l 32 39)) * (1 / 10),
         pyNum (GetFloat (pySlice l 39 46)) * (1 / 10),
         pyNum (GetFloat (pySlice l 46 53)) * (1 / 10)]
      comments := pySlice l 61 69
      joint2 := pyStripStr (pySlice l 72 76)
      joint3 := pyStripStr (pySlice l 76 80) }
  { j with spring := some sp }

/-- The source `LOAD.__init__` (lines 479-513) on a `LOAD` line: decode the
recognised `(coordinate system, type)` combinations; `none` models the
`else` branch, which only logs and leaves the object without a `type`
attribute (never stored by the parser, whose guard admits exactly the
three recognised combinations; the `assert` on line 495 is likewise
unreachable through that guard). -/
def LOAD.ofLine (l : String) : Option LOADrec :=
  let csys := pySlice l 60 64
  let ltype := pySlice l 65 69
  let remarks := pyStripStr (pySlice l 72 80)
  if csys = "GLOB" then
    if ltype = "JOIN" then
      some (.joint (pyStripStr (pySlice l 7 11))
        [pyNum (GetFloat (pySlice l 16 23)) * 1000,
         pyNum (GetFloat (pySlice l 23 30)) * 1000,
         pyNum (GetFloat (pySlice l 30 37)) * 1000,
         pyNum (GetFloat (pySlice l 37 44)) * 1000,
         pyNum (GetFloat (pySlice l 45 52)) * 1000,
         pyNum (GetFloat (pySlice l 52 59)) * 1000] remarks)
    else if ltype = "UNIF" then
      some (.beam (pySlice l 5 6) (pySlice l 7 15)
        (pyNum (GetFloat (pySlice l 16 23)))
        (pyNum (GetFloat (pySlice l 30 37)))
        [pyNum (GetFloat (pySlice l 23 30)) * 1000,
         pyNum (GetFloat (pySlice l 37 44)) * 1000] remarks)
    else none
  else if csys = "PRES" then
    some (.pressure (pyStripStr (pySlice l 7 11))
      (if pySlice l 5 6 = "-" then pyNum (GetFloat (pySlice l 16 23)) * 1000 * (-1)
        else pyNum (GetFloat (pySlice l 16 23)) * 1000) remarks)
  else none

/-- The source `LCOMB.AddLoads` (lines 435-448): append up to six
`(stripped name, GetFloat factor)` pairs from one `LCOMB` line, skipping
blank name fields. -/
def LCOMB.addLoads (c : LCOMB) (l : String) : LCOMB :=
  ⟨c.loadcases ++
    ([(pySlice l 11 15, pySlice l 15 21), (pySlice l 21 25, pySlice l 25 31),
      (pySlice l 31 35, pySlice l 35 41), (pySlice l 41 45, pySlice l 45 51),
      (pySlice l 51 55, pySlice l 55 61), (pySlice l 61 65, pySlice l 65 71)].filterMap
      fun p => if pyStripStr p.1 ≠ "" then some (pyStripStr p.1, GetFloat p.2) else none)⟩

/-- From `sacs_cards.py` lines 579-591, the attributes of `SacsStructure`.
These are bound on the **class**, not per instance: every dict/list here
is one shared object mutated in place by all instances, while `abq_n` and
`load_case` are rebound per instance by `+=`/`=` (so each instance starts
them from the class values `0` and `""`, and the class values never
change). -/
structure SacsStru where
  members : List (String × MEMBER)
  plates : List (String × PLATE)
  grups : List (String × GRUP)
  pgrups : List (String × PGRUP)
  sects : List (String × SECTENTRY)
  joints : List (String × JOINT)
  nmap : List (ℕ × String)
  abq_n : ℕ
  lcombs : List (String × LCOMB)
  loadcases : List (String × LOADCASE)
  load_case : String
  missing_sect_members : List String
  deriving DecidableEq, Repr

/-- The class-level state of `SacsStructure` before any parsing: empty
shared containers, `abq_n = 0`, `load_case = ""`. -/
def initialClassState : SacsStru :=
  { members := [], plates := [], grups := [], pgrups := [], sects := []
    joints := [], nmap := [], abq_n := 0, lcombs := [], loadcases := []
    load_case := "", missing_sect_members := [] }

/-- One iteration of the `parse_sacs_file` line-dispatch loop
(`sacs_cards.py` lines 602-695), faithful to the source's branch order and
guards.  Errors propagate: nothing in the loop catches an exception raised
while decoding a line (in particular the `PSTIF` `AssertionError` and the
`KeyError` from `LOADLB`/`LOAD` lines arriving before any `LOADCN`). -/
def parseSacsLine (stru : SacsStru) (raw : String) : Except PyError SacsStru :=
  let l := pad80 raw
  if pyRstripStr l ≠ "JOINT" ∧ pySlice l 0 5 = "JOINT" then
    if pySlice l 54 60 = "ELASTI" ∧ (dictGet stru.joints (pySlice l 6 10)).isSome then
      Except.ok { stru with
        joints := dictMod stru.joints (pySlice l 6 10) (fun j => j.elastic l) }
    else if pySlice l 54 60 = "ELASTI" then
      Except.ok stru
    else
      let n := stru.abq_n + 1
      let j := JOINT.ofLine l n
      Except.ok { stru with
        abq_n := n
        joints := dictInsert stru.joints j.ID j
        nmap := stru.nmap ++ [(n, j.ID)] }
  else if pySlice l 0 6 = "MEMBER" ∧ pyRstripStr l ≠ "MEMBER"
      ∧ pySlice l 7 14 ≠ "OFFSETS" then
    let m := MEMBER.ofLine l
    Except.ok { stru with members := dictInsert stru.members m.ID m }
  else if pySlice l 0 5 = "PLATE" ∧ pyRstripStr l ≠ "PLATE"
      ∧ pySlice l 7 14 ≠ "OFFSETS" then
    let p := PLATE.ofLine l
    Except.ok { stru with plates := dictInsert stru.plates p.ID p }
  else if pyRstripStr l ≠ "SECT" ∧ pySlice l 0 4 = "SECT" then
    if (dictGet stru.sects (pySlice l 5 12)).isNone then
      let s := SECT.ofLine l
      Except.ok { stru with sects := dictInsert stru.sects s.sid (.sect s) }
    else Except.ok stru
  else if pyStripStr l ≠ "PSTIF" ∧ pySlice l 0 5 = "PSTIF" then
    if (dictGet stru.sects (pyStripStr (pySlice l 10 17))).isNone then
      match PSTIF.ofLine l with
      | .error e => Except.error e
      | .ok s => Except.ok { stru with sects := dictInsert stru.sects s.ID (.pstif s) }
    else Except.ok stru
  else if pyRstripStr l ≠ "GRUP" ∧ pySlice l 0 4 = "GRUP" then
    if (dictGet stru.grups (pySlice l 5 8)).isNone then
      let g := GRUP.ofLine l
      if g.sectionRef = "" then
        let s := SECT.ofGrup g
        Except.ok { stru with
          sects := dictInsert stru.sects s.sid (.sect s)
          grups := dictInsert stru.grups g.ID { g with sectionRef := s.sid } }
      else
        Except.ok { stru with grups := dictInsert stru.grups g.ID g }
    else Except.ok stru
  else if pyRstripStr l ≠ "PGRUP" ∧ pySlice l 0 5 = "PGRUP" then
    if (dictGet stru.pgrups (pySlice l 5 8)).isNone then
      let pg := PGRUP.ofLine l
      Except.ok { stru with pgrups := dictInsert stru.pgrups pg.ID pg }
    else Except.ok stru
  else if pySlice l 0 6 = "LOADCN" then
    let name := pyStripStr (pySlice l 7 12)
    Except.ok { stru with
      load_case := name
      loadcases := dictInsert stru.loadcases name ⟨"", []⟩ }
  else if pySlice l 0 6 = "LOADLB" then
    match dictGet stru.loadcases stru.load_case with
    | none => Except.error (PyError.keyError stru.load_case)
    | some _ => Except.ok { stru with
        loadcases := dictMod stru.loadcases stru.load_case
          (fun c => ⟨pySlice l 6 80, c.loads⟩) }
  else if pyStripStr l ≠ "LOAD" ∧ pySlice l 0 4 = "LOAD" then
    if (pySlice l 60 64, pySlice l 65 69) = ("GLOB", "JOIN")
        ∨ (pySlice l 60 64, pySlice l 65 69) = ("GLOB", "UNIF")
        ∨ (pySlice l 60 64, pySlice l 65 69) = ("PRES", "UNIF") then
      match dictGet stru.loadcases stru.load_case with
      | none => Except.error (PyError.keyError stru.load_case)
      | some _ => Except.ok { stru with
          loadcases := dictMod stru.loadcases stru.load_case
            (fun c => ⟨c.description, c.loads ++ (LOAD.ofLine l).toList⟩) }
    else Except.ok stru
  else if pySlice l 0 5 = "LCOMB" then
    let lc := pyStripStr (pySlice l 6 10)
    match dictGet stru.lcombs lc with
    | some cmb => Except.ok { stru with lcombs := dictInsert stru.lcombs lc (cmb.addLoads l) }
    | none => Except.ok { stru with
        lcombs := dictInsert stru.lcombs lc ((LCOMB.mk []).addLoads l) }
  else Except.ok stru

/-- The dispatch loop over all lines of the input file(s), in order. -/
def parseSacsLinesGo (stru : SacsStru) : List String → Except PyError SacsStru
  | [] => Except.ok stru
  | raw :: rest => do
    let s2 ← parseSacsLine stru raw
    parseSacsLinesGo s2 rest

/-- The source `SacsStructure.parse_sacs_file` (lines 593-696) over the concatenated
lines of its input files.  `stru = SacsStructure()` gives the new instance
the **shared class dicts** (the `classState` argument) while `stru.abq_n
+= 1` and `stru.load_case = ...` rebind per instance, starting from the
class values `0` and `""` — hence the resets here. -/
def parseSacsLines (lines : List String) (classState : SacsStru) :
    Except PyError SacsStru :=
  parseSacsLinesGo { classState with abq_n := 0, load_case := "" } lines

/-- The position of a joint as a real vector (`JOINT.as_vector`). -/
def JOINT.asVec (j : JOINT) : Vec3 := ⟨(j.x : ℝ), (j.y : ℝ), (j.z : ℝ)⟩

/-- Python tuples are immutable and have no `append` method: looking the
attribute up raises `AttributeError`, so no value is ever produced (hence
the `Empty` payload).  `merge_small_members` calls `.append` on the
`(ABQID, ID)` **tuples** that `parse_sacs_file` line 620 stores in `nmap`
(the legacy `convert_SACSv1_noDialog.py` line 442 stored **lists**, where
`.append` worked). -/
def tupleAppend (_entry : ℕ × String) (_note : String) : Except PyError Empty :=
  Except.error (PyError.attributeError "append")

/-- The source `SacsStructure.merge_small_members` (lines 698-713): for each member
in turn, if its end joints are closer than `LENGTH_TOL = 1e-6`, annotate
the B joint's node-map entry via `.append` and reassign the B joint's
`ABQID` — the reassignment (and the rest of the loop) sits after the
`.append` call and is unreachable once that call raises. -/
noncomputable def mergeSmallMembersGo (s : SacsStru) :
    List (String × MEMBER) → Except PyError SacsStru
  | [] => Except.ok s
  | (_, m) :: rest =>
    match dictGet s.joints m.jointA with
    | none => Except.error (PyError.keyError m.jointA)
    | some jA =>
      match dictGet s.joints m.jointB with
      | none => Except.error (PyError.keyError m.jointB)
      | some jB =>
        if (jA.asVec.sub jB.asVec).length < (1 / 1000000 : ℝ) then
          match s.nmap.get? (jB.ABQID - 1) with
          | none => Except.error (PyError.indexError "nmap")
          | some entry =>
            (tupleAppend entry ("MERGED WITH " ++ toString jA.ABQID)).bind
              (fun e => e.elim)
        else mergeSmallMembersGo s rest

/-- The source `SacsStructure.merge_small_members`, iterating the members dict. -/
noncomputable def mergeSmallMembers (s : SacsStru) : Except PyError SacsStru :=
  mergeSmallMembersGo s s.members

/-- The input of the C5 demonstration: two joints at identical coordinates
joined by one member. -/
def c5Lines : List String :=
  ["JOINT J001    1.0    2.0    3.0",
   "JOINT J002    1.0    2.0    3.0",
   "MEMBER J001J002"]

/-- The structure `parse_sacs_file` builds from `c5Lines`. -/
def c5Stru : SacsStru :=
  ((parseSacsLines c5Lines initialClassState).toOption).getD initialClassState

/-!
## Theorems
-/

/-- C2 counterexample: the claim says `GetFloat "1.23E-2" = 0.0123`; in fact
the repair step rewrites the well-formed exponent `E-` to `EE-` and the
parse fails, so `GetFloat` returns the `False` sentinel (`none`), not
`0.0123`. -/
theorem getFloat_wellformed_cex :
    GetFloat "1.23E-2" = none ∧ GetFloat "1.23E-2" ≠ some (123 / 10000 : ℚ) := by
  have h : GetFloat "1.23E-2" = none := rfl
  exact ⟨h, by rw [h]; exact fun hc => Option.noConfusion hc⟩

/-- C2 (amended): `GetFloat` maps `"1.23-2"` to `0.0123` and `"-1.23-2"` to
`-0.0123` (the leading minus survives the exponent-repair step), but the
already well-formed input `"1.23E-2"` is corrupted by the repair step
(`"-" ↦ "E-"` also fires on a genuine exponent marker) and yields the
no-value sentinel instead of `0.0123`. -/
theorem getFloat_exponent_repair :
    GetFloat "1.23-2" = some (123 / 10000 : ℚ)
      ∧ GetFloat "-1.23-2" = some (-(123 / 10000) : ℚ)
      ∧ GetFloat "1.23E-2" = none := by
  have h1 : GetFloat "1.23-2"
      = some ((((1 : ℕ) : ℚ) + ((23 : ℕ) : ℚ) / 10 ^ 2) / 10 ^ 2) := rfl
  have h2 : GetFloat "-1.23-2"
      = some (-((((1 : ℕ) : ℚ) + ((23 : ℕ) : ℚ) / 10 ^ 2) / 10 ^ 2)) := rfl
  refine ⟨?_, ?_, rfl⟩
  · rw [h1]; norm_num
  · rw [h2]; norm_num

theorem Vec3.add_sub_cancel_left (a b : Vec3) : (a.add b).sub a = b := by
  ext <;> simp [Vec3.add, Vec3.sub]

theorem Vec3.smul_dot (r : ℝ) (a b : Vec3) :
    (Vec3.smul r a).dot b = r * a.dot b := by
  simp [Vec3.smul, Vec3.dot]; ring

theorem Vec3.dot_add_right (a b c : Vec3) :
    a.dot (b.add c) = a.dot b + a.dot c := by
  simp [Vec3.add, Vec3.dot]; ring

theorem orderJoints_swap_of (j1 j2 j3 j4 : Vec3)
    (h : Real.arccos ((j2.sub j1).normalise.dot (j4.sub j1) / (j4.sub j1).length)
        < Real.arccos ((j2.sub j1).normalise.dot (j3.sub j1) / (j3.sub j1).length)) :
    OrderJoints [j1, j2, j3, j4] = some [j1, j2, j4, j3] := by
  simp only [OrderJoints]
  rw [if_pos h]

theorem orderJoints_noswap_of (j1 j2 j3 j4 : Vec3)
    (h : ¬ Real.arccos ((j2.sub j1).normalise.dot (j4.sub j1) / (j4.sub j1).length)
        < Real.arccos ((j2.sub j1).normalise.dot (j3.sub j1) / (j3.sub j1).length)) :
    OrderJoints [j1, j2, j3, j4] = some [j1, j2, j3, j4] := by
  simp only [OrderJoints]
  rw [if_neg h]

theorem Vec3.add_add_sub_cancel_left (a b c : Vec3) :
    ((a.add b).add c).sub a = b.add c := by
  ext <;> simp [Vec3.add, Vec3.sub] <;> ring

/-- C1 counterexample: the four corners of the unit square declared with the
two diagonal corners first, `(0,0), (1,1), (1,0), (0,1)`.  The declared
order self-intersects, the points do form a simple quadrilateral under the
ordering `(0,0), (1,0), (1,1), (0,1)`, yet `OrderJoints` measures equal
angles to joints 3 and 4 and returns the declared order unchanged — the
emitted element still self-intersects, so the output ordering does not
produce zero crossings. -/
theorem orderJoints_diagonal_cex :
    OrderJoints [⟨0, 0, 0⟩, ⟨1, 1, 0⟩, ⟨1, 0, 0⟩, ⟨0, 1, 0⟩]
        = some [⟨0, 0, 0⟩, ⟨1, 1, 0⟩, ⟨1, 0, 0⟩, ⟨0, 1, 0⟩]
      ∧ quadSelfIntersects ⟨0, 0, 0⟩ ⟨1, 1, 0⟩ ⟨1, 0, 0⟩ ⟨0, 1, 0⟩
      ∧ ¬ quadSelfIntersects ⟨0, 0, 0⟩ ⟨1, 0, 0⟩ ⟨1, 1, 0⟩ ⟨0, 1, 0⟩ := by
  refine ⟨?_, ?_, ?_⟩
  · apply orderJoints_noswap_of
    have he : ((Vec3.mk 1 1 0).sub ⟨0, 0, 0⟩).normalise.dot
            ((Vec3.mk 1 0 0).sub ⟨0, 0, 0⟩) / ((Vec3.mk 1 0 0).sub ⟨0, 0, 0⟩).length
        = ((Vec3.mk 1 1 0).sub ⟨0, 0, 0⟩).normalise.dot
            ((Vec3.mk 0 1 0).sub ⟨0, 0, 0⟩) / ((Vec3.mk 0 1 0).sub ⟨0, 0, 0⟩).length := by
      simp [Vec3.sub, Vec3.normalise, Vec3.smul, Vec3.dot, Vec3.length]
    rw [he]
    exact lt_irrefl _
  · left
    constructor
    · show orient2 ⟨0, 0, 0⟩ ⟨1, 1, 0⟩ ⟨1, 0, 0⟩ * orient2 ⟨0, 0, 0⟩ ⟨1, 1, 0⟩ ⟨0, 1, 0⟩ < 0
      norm_num [orient2]
    · show orient2 ⟨1, 0, 0⟩ ⟨0, 1, 0⟩ ⟨0, 0, 0⟩ * orient2 ⟨1, 0, 0⟩ ⟨0, 1, 0⟩ ⟨1, 1, 0⟩ < 0
      norm_num [orient2]
  · rintro (⟨h1, -⟩ | ⟨h1, -⟩) <;> norm_num [orient2] at h1

/-- C1 (amended): `OrderJoints` always returns a permutation of its four
input joints (never dropping a vertex — triangles never reach it, see
`write_elements`), and for a plate whose corners span a rectangle
`A, A+u, A+u+v, A+v` in the global XY plane, declared in the adversarial
adjacent-first order `(A, A+u, A+v, A+u+v)` (which self-intersects),
`OrderJoints` swaps the last two joints and the emitted order
`(A, A+u, A+u+v, A+v)` has zero crossings.  The guarantee does not extend
to declared orders whose first two joints are opposite corners
(`orderJoints_diagonal_cex`). -/
theorem orderJoints_rectangle_fix (A u v : Vec3)
    (huz : u.z = 0) (hvz : v.z = 0) (hperp : u.dot v = 0)
    (hu : u ≠ ⟨0, 0, 0⟩) (hv : v ≠ ⟨0, 0, 0⟩) :
    (∀ l out, OrderJoints l = some out → out.Perm l)
      ∧ quadSelfIntersects A (A.add u) (A.add v) ((A.add u).add v)
      ∧ OrderJoints [A, A.add u, A.add v, (A.add u).add v]
          = some [A, A.add u, (A.add u).add v, A.add v]
      ∧ ¬ quadSelfIntersects A (A.add u) ((A.add u).add v) (A.add v) := by
  have hs : u.x * v.x + u.y * v.y = 0 := by
    have h := hperp
    simp only [Vec3.dot, huz, zero_mul, add_zero] at h
    exact h
  have sq_pos : ∀ r : ℝ, r ≠ 0 → 0 < r ^ 2 := fun r hr =>
    lt_of_le_of_ne (sq_nonneg r) (Ne.symm (pow_ne_zero 2 hr))
  have hdu : 0 < u.x ^ 2 + u.y ^ 2 := by
    rcases eq_or_ne u.x 0 with hx | hx
    · rcases eq_or_ne u.y 0 with hy | hy
      · exact absurd (Vec3.ext hx hy huz) hu
      · nlinarith [sq_pos u.y hy, sq_nonneg u.x]
    · nlinarith [sq_pos u.x hx, sq_nonneg u.y]
  have hdv : 0 < v.x ^ 2 + v.y ^ 2 := by
    rcases eq_or_ne v.x 0 with hx | hx
    · rcases eq_or_ne v.y 0 with hy | hy
      · exact absurd (Vec3.ext hx hy hvz) hv
      · nlinarith [sq_pos v.y hy, sq_nonneg v.x]
    · nlinarith [sq_pos v.x hx, sq_nonneg v.y]
  have hc2 : (u.x * v.y - u.y * v.x) ^ 2 = (u.x ^ 2 + u.y ^ 2) * (v.x ^ 2 + v.y ^ 2) := by
    linear_combination (-(u.x * v.x + u.y * v.y)) * hs
  have hc2pos : 0 < (u.x * v.y - u.y * v.x) ^ 2 := hc2 ▸ mul_pos hdu hdv
  have o1 : orient2 (A.add u) (A.add v) ((A.add u).add v)
      = -(u.x * v.y - u.y * v.x) := by
    simp only [orient2, Vec3.add]; ring
  have o2 : orient2 (A.add u) (A.add v) A = u.x * v.y - u.y * v.x := by
    simp only [orient2, Vec3.add]; ring
  have o3 : orient2 ((A.add u).add v) A (A.add u) = u.x * v.y - u.y * v.x := by
    simp only [orient2, Vec3.add]; ring
  have o4 : orient2 ((A.add u).add v) A (A.add v)
      = -(u.x * v.y - u.y * v.x) := by
    simp only [orient2, Vec3.add]; ring
  have o5 : orient2 A (A.add u) ((A.add u).add v) = u.x * v.y - u.y * v.x := by
    simp only [orient2, Vec3.add]; ring
  have o6 : orient2 A (A.add u) (A.add v) = u.x * v.y - u.y * v.x := by
    simp only [orient2, Vec3.add]; ring
  have o7 : orient2 (A.add u) ((A.add u).add v) (A.add v)
      = u.x * v.y - u.y * v.x := by
    simp only [orient2, Vec3.add]; ring
  have o8 : orient2 (A.add u) ((A.add u).add v) A = u.x * v.y - u.y * v.x := by
    simp only [orient2, Vec3.add]; ring
  refine ⟨?_, ?_, ?_, ?_⟩
  · intro l out h
    rcases l with _ | ⟨a, _ | ⟨b, _ | ⟨c, _ | ⟨d, _ | ⟨e, t⟩⟩⟩⟩⟩
    · simp [OrderJoints] at h
    · simp [OrderJoints] at h
    · simp [OrderJoints] at h
    · simp [OrderJoints] at h
    · simp only [OrderJoints, Option.some.injEq] at h
      split_ifs at h
      · exact h ▸ List.Perm.cons a (List.Perm.cons b (List.Perm.swap c d []))
      · exact h ▸ List.Perm.refl _
    · simp [OrderJoints] at h
  · right
    constructor
    · rw [o1, o2]; nlinarith [hc2pos]
    · rw [o3, o4]; nlinarith [hc2pos]
  · apply orderJoints_swap_of
    rw [Vec3.add_sub_cancel_left, Vec3.add_sub_cancel_left, Vec3.add_add_sub_cancel_left]
    have hudu : 0 < u.dot u := by
      simp only [Vec3.dot, huz, mul_zero, add_zero]
      nlinarith [hdu]
    have hulen : 0 < u.length := by
      rw [Vec3.length]; exact Real.sqrt_pos.mpr hudu
    have huvlen : 0 < (u.add v).length := by
      rw [Vec3.length]
      apply Real.sqrt_pos.mpr
      simp only [Vec3.dot, Vec3.add, huz, hvz]
      nlinarith [hdu, hdv, hs]
    have e3 : u.normalise.dot v / v.length = 0 := by
      rw [Vec3.normalise, Vec3.smul_dot, hperp, mul_zero, zero_div]
    rw [e3, Real.arccos_zero]
    apply Real.arccos_lt_pi_div_two.mpr
    rw [Vec3.normalise, Vec3.smul_dot, Vec3.dot_add_right, hperp, add_zero]
    exact div_pos (mul_pos (one_div_pos.mpr hulen) hudu) huvlen
  · rintro (⟨h1, -⟩ | ⟨h1, -⟩)
    · rw [o5, o6] at h1
      exact absurd h1 (not_lt.mpr (mul_self_nonneg _))
    · rw [o7, o8] at h1
      exact absurd h1 (not_lt.mpr (mul_self_nonneg _))

/-- Witness for `orderJoints_rectangle_fix` at the unit square
`A = (0,0,0)`, `u = (1,0,0)`, `v = (0,1,0)`. -/
theorem orderJoints_rectangle_fix_witness :
    ((⟨1, 0, 0⟩ : Vec3).z = 0 ∧ (⟨0, 1, 0⟩ : Vec3).z = 0
      ∧ Vec3.dot ⟨1, 0, 0⟩ ⟨0, 1, 0⟩ = 0
      ∧ (⟨1, 0, 0⟩ : Vec3) ≠ ⟨0, 0, 0⟩ ∧ (⟨0, 1, 0⟩ : Vec3) ≠ ⟨0, 0, 0⟩)
    ∧ ((∀ l out, OrderJoints l = some out → out.Perm l)
      ∧ quadSelfIntersects ⟨0, 0, 0⟩ (Vec3.add ⟨0, 0, 0⟩ ⟨1, 0, 0⟩)
          (Vec3.add ⟨0, 0, 0⟩ ⟨0, 1, 0⟩)
          ((Vec3.add ⟨0, 0, 0⟩ ⟨1, 0, 0⟩).add ⟨0, 1, 0⟩)
      ∧ OrderJoints [⟨0, 0, 0⟩, Vec3.add ⟨0, 0, 0⟩ ⟨1, 0, 0⟩,
            Vec3.add ⟨0, 0, 0⟩ ⟨0, 1, 0⟩,
            (Vec3.add ⟨0, 0, 0⟩ ⟨1, 0, 0⟩).add ⟨0, 1, 0⟩]
          = some [⟨0, 0, 0⟩, Vec3.add ⟨0, 0, 0⟩ ⟨1, 0, 0⟩,
            (Vec3.add ⟨0, 0, 0⟩ ⟨1, 0, 0⟩).add ⟨0, 1, 0⟩,
            Vec3.add ⟨0, 0, 0⟩ ⟨0, 1, 0⟩]
      ∧ ¬ quadSelfIntersects ⟨0, 0, 0⟩ (Vec3.add ⟨0, 0, 0⟩ ⟨1, 0, 0⟩)
          ((Vec3.add ⟨0, 0, 0⟩ ⟨1, 0, 0⟩).add ⟨0, 1, 0⟩)
          (Vec3.add ⟨0, 0, 0⟩ ⟨0, 1, 0⟩)) := by
  have h1 : (⟨1, 0, 0⟩ : Vec3).z = 0 := rfl
  have h2 : (⟨0, 1, 0⟩ : Vec3).z = 0 := rfl
  have h3 : Vec3.dot ⟨1, 0, 0⟩ ⟨0, 1, 0⟩ = 0 := by norm_num [Vec3.dot]
  have h4 : (⟨1, 0, 0⟩ : Vec3) ≠ ⟨0, 0, 0⟩ := by
    intro h
    exact one_ne_zero (congrArg Vec3.x h)
  have h5 : (⟨0, 1, 0⟩ : Vec3) ≠ ⟨0, 0, 0⟩ := by
    intro h
    exact one_ne_zero (congrArg Vec3.y h)
  exact ⟨⟨h1, h2, h3, h4, h5⟩,
    orderJoints_rectangle_fix ⟨0, 0, 0⟩ ⟨1, 0, 0⟩ ⟨0, 1, 0⟩ h1 h2 h3 h4 h5⟩

/-- C3: `MEMBER.local_csys` and `PLATE.local_csys` raise the
name-resolution error for every input (the record-model module binds the
frame type to the name `CSys`, which `geom3.py` never defines), and
`SacsStructure.to_dict` consequently fails for every structure holding at
least one member or plate: no input makes these operations return a
coordinate frame. -/
theorem csys_name_resolution_error :
    (∀ start stop, memberLocalCsys start stop
        = Except.error (PyError.importError "CSys"))
      ∧ (∀ ja jb jc, plateLocalCsys ja jb jc
        = Except.error (PyError.importError "CSys"))
      ∧ (∀ e ends corners, structLocalFrames (e :: ends) corners
          = Except.error (PyError.importError "CSys"))
      ∧ (∀ ends p corners, structLocalFrames ends (p :: corners)
          = Except.error (PyError.importError "CSys"))
      ∧ "CSys" ∉ geom3ModuleNames := by
  refine ⟨fun _ _ => rfl, fun _ _ _ => rfl, fun _ _ _ => rfl, ?_, by decide⟩
  intro ends p corners
  rcases ends with _ | ⟨e, es⟩ <;> rfl

theorem dictGet_mem {α : Type} {d : List (String × α)} {k : String} {v : α}
    (h : dictGet d k = some v) : (k, v) ∈ d := by
  unfold dictGet at h
  cases hf : d.find? (fun p => p.1 == k) with
  | none => rw [hf] at h; simp at h
  | some p =>
    rw [hf] at h
    simp only [Option.map_some', Option.some.injEq] at h
    have hmem := List.mem_of_find?_eq_some hf
    have hkey := List.find?_some hf
    simp only [beq_iff_eq] at hkey
    have : p = (k, v) := by
      cases p
      simp only [Prod.mk.injEq]
      exact ⟨hkey, h⟩
    exact this ▸ hmem

theorem LOADrec.scale_scale (l : LOADrec) (f g : ℚ) :
    (l.scale g).scale f = l.scale (f * g) := by
  cases l with
  | joint j ld r =>
    simp only [LOADrec.scale, List.map_map]
    have hfg : ((fun c => f * c) ∘ fun c => g * c) = fun c : ℚ => f * g * c := by
      funext c
      simp only [Function.comp_apply]
      ring
    rw [hfg]
  | beam d b so ll ld r =>
    simp only [LOADrec.scale, List.map_map]
    have hfg : ((fun c => f * c) ∘ fun c => g * c) = fun c : ℚ => f * g * c := by
      funext c
      simp only [Function.comp_apply]
      ring
    rw [hfg]
  | pressure p ld r =>
    simp only [LOADrec.scale, LOADrec.pressure.injEq]
    exact ⟨trivial, by ring, trivial⟩

theorem lcombEntriesLoads_isSome (lcs : List (String × LOADCASE))
    (lcombs : List (String × LCOMB)) (recur : LCOMB → Option LOADCASE)
    (entries : List (String × Option ℚ))
    (h : ∀ p ∈ entries, (lcombEntryLoads lcs lcombs recur p).isSome) :
    ∃ L, lcombEntriesLoads lcs lcombs recur entries = some L := by
  induction entries with
  | nil => exact ⟨[], rfl⟩
  | cons p rest ih =>
    obtain ⟨H, hH⟩ := Option.isSome_iff_exists.mp (h p (List.mem_cons_self p rest))
    obtain ⟨T, hT⟩ := ih (fun q hq => h q (List.mem_cons_of_mem p hq))
    exact ⟨H ++ T, by simp [lcombEntriesLoads, hH, hT]⟩

theorem lcombEntriesLoads_mem (lcs : List (String × LOADCASE))
    (lcombs : List (String × LCOMB)) (recur : LCOMB → Option LOADCASE)
    (entries : List (String × Option ℚ)) (L : List LOADrec)
    (hL : lcombEntriesLoads lcs lcombs recur entries = some L)
    (p : String × Option ℚ) (hp : p ∈ entries) (H : List LOADrec)
    (hH : lcombEntryLoads lcs lcombs recur p = some H)
    (x : LOADrec) (hx : x ∈ H) : x ∈ L := by
  induction entries generalizing L with
  | nil => cases hp
  | cons q rest ih =>
    simp only [lcombEntriesLoads, Option.bind_eq_bind] at hL
    cases hq : lcombEntryLoads lcs lcombs recur q with
    | none => rw [hq] at hL; simp at hL
    | some Hq =>
      rw [hq] at hL
      cases ht : lcombEntriesLoads lcs lcombs recur rest with
      | none => rw [ht] at hL; simp at hL
      | some T =>
        rw [ht] at hL
        simp only [Option.some_bind, Option.pure_def, Option.some.injEq] at hL
        rcases List.mem_cons.mp hp with rfl | hp'
        · rw [hq] at hH
          injection hH with hHq
          subst hHq
          exact hL ▸ List.mem_append_left _ hx
        · exact hL ▸ List.mem_append_right _ (ih T ht hp')

/-- C9: for every structure whose load-combination reference graph is
acyclic (witnessed by a rank function strictly decreasing along resolved
combination references), `LCOMB.to_basic` terminates — the fuel-indexed
model returns a flattened `LOADCASE` whenever the fuel exceeds the
combination's rank — and the flattening is transitive: every basic load
case reached through any chain of combination references contributes each
of its loads to the flattened case, scaled by the product of the factors
along the chain. -/
theorem toBasic_acyclic_flattens
    (lcs : List (String × LOADCASE)) (lcombs : List (String × LCOMB))
    (rank : String → Nat) (hrank : LcombsRanked lcs lcombs rank)
    (name : String) (self : LCOMB) (hself : dictGet lcombs name = some self)
    (fuel : Nat) (hfuel : rank name < fuel) :
    ∃ flat, toBasic lcs lcombs fuel self = some flat
      ∧ ∀ prod basic, ChainTo lcs lcombs self prod basic →
        ∀ base, dictGet lcs basic = some base →
          ∀ ld ∈ base.loads, ld.scale prod ∈ flat.loads := by
  induction fuel generalizing name self with
  | zero => exact absurd hfuel (Nat.not_lt_zero _)
  | succ n ih =>
    have hentry : ∀ p ∈ self.loadcases,
        (lcombEntryLoads lcs lcombs (toBasic lcs lcombs n) p).isSome := by
      intro p hp
      cases hgl : dictGet lcs p.1 with
      | some base => simp [lcombEntryLoads, hgl]
      | none =>
        cases hgc : dictGet lcombs p.1 with
        | none => simp [lcombEntryLoads, hgl, hgc]
        | some sub =>
          have hsome : (dictGet lcombs p.1).isSome := by rw [hgc]; rfl
          have hlt : rank p.1 < rank name :=
            hrank (name, self) (dictGet_mem hself) p hp hgl hsome
          obtain ⟨flat', hflat', -⟩ := ih p.1 sub hgc (by omega)
          simp [lcombEntryLoads, hgl, hgc, hflat']
    obtain ⟨L, hL⟩ := lcombEntriesLoads_isSome lcs lcombs _ self.loadcases hentry
    refine ⟨⟨"", L⟩, by simp [toBasic, hL], ?_⟩
    intro prod basic hchain base hbase ld hld
    cases hchain with
    | direct _ nm factor base0 hpmem hbase0 =>
      rw [hbase0] at hbase
      injection hbase with hbase
      subst hbase
      have hH : lcombEntryLoads lcs lcombs (toBasic lcs lcombs n) (basic, factor)
          = some (base0.loads.map (fun l2 => l2.scale (pyNum factor))) := by
        simp [lcombEntryLoads, hbase0]
      exact lcombEntriesLoads_mem lcs lcombs _ self.loadcases L hL (basic, factor)
        hpmem _ hH _ (List.mem_map_of_mem _ hld)
    | step _ nm factor sub g basic2 hpmem hnone hsub hchain2 =>
      have hsome : (dictGet lcombs nm).isSome := by rw [hsub]; rfl
      have hlt : rank nm < rank name :=
        hrank (name, self) (dictGet_mem hself) (nm, factor) hpmem hnone hsome
      obtain ⟨flat', hflat', hmem'⟩ := ih nm sub hsub (by omega)
      have hx' : ld.scale g ∈ flat'.loads := hmem' g basic hchain2 base hbase ld hld
      have hH : lcombEntryLoads lcs lcombs (toBasic lcs lcombs n) (nm, factor)
          = some (flat'.loads.map (fun l2 => l2.scale (pyNum factor))) := by
        simp [lcombEntryLoads, hnone, hsub, hflat']
      have hx2 : ld.scale (pyNum factor * g)
          ∈ flat'.loads.map (fun l2 => l2.scale (pyNum factor)) := by
        rw [← LOADrec.scale_scale]
        exact List.mem_map_of_mem _ hx'
      exact lcombEntriesLoads_mem lcs lcombs _ self.loadcases L hL (nm, factor)
        hpmem _ hH _ hx2

/-- Witness for `toBasic_acyclic_flattens` at the two-level nesting
`C1 → C2 → CASE1` with fuel 2. -/
theorem toBasic_acyclic_flattens_witness :
    (LcombsRanked demoLcs demoLcombs demoRank
      ∧ dictGet demoLcombs "C1" = some ⟨[("C2", some 3)]⟩
      ∧ demoRank "C1" < 2)
    ∧ (∃ flat, toBasic demoLcs demoLcombs 2 ⟨[("C2", some 3)]⟩ = some flat
      ∧ ∀ prod basic, ChainTo demoLcs demoLcombs ⟨[("C2", some 3)]⟩ prod basic →
        ∀ base, dictGet demoLcs basic = some base →
          ∀ ld ∈ base.loads, ld.scale prod ∈ flat.loads) := by
  have hr : LcombsRanked demoLcs demoLcombs demoRank := by
    unfold LcombsRanked
    decide
  exact ⟨⟨hr, rfl, by decide⟩,
    toBasic_acyclic_flattens demoLcs demoLcombs demoRank hr "C1" _ rfl 2 (by decide)⟩

/-- C4: on the claim's combination, the summing flatten path of
`write_loads` raises `AttributeError` on the unbound `force` attribute
instead of producing the combined load; with the attribute read corrected
to `load`, the very same loop yields the claimed single combined
`[20, 0, -5, 0, 0, 0]` at `J`; and `LCOMB.to_basic` flattens to two
separate scaled loads at `J` (factor-scaled, but never summed into one
entry). -/
theorem write_loads_force_attribute_error :
    writeLoadsCombination c4Loadcases c4Comb
        = Except.error (PyError.attributeError "force")
      ∧ writeLoadsCombinationIntended c4Loadcases c4Comb
        = Except.ok [("J", [20, 0, -5, 0, 0, 0])]
      ∧ toBasic c4Loadcases [] 1 c4Comb
        = some ⟨"", [LOADrec.joint "J" [20, 0, 0, 0, 0, 0] "",
            LOADrec.joint "J" [0, 0, -5, 0, 0, 0] ""]⟩ := by
  refine ⟨rfl, ?_, ?_⟩
  · have hmid : writeLoadsCombinationIntended c4Loadcases c4Comb
        = Except.ok [("J",
            [0 + 10 * 2 + 0 * (-1), 0 + 0 * 2 + 0 * (-1), 0 + 0 * 2 + 5 * (-1),
             0 + 0 * 2 + 0 * (-1), 0 + 0 * 2 + 0 * (-1), 0 + 0 * 2 + 0 * (-1)])] := rfl
    rw [hmid]
    norm_num
  · have hmid : toBasic c4Loadcases [] 1 c4Comb
        = some ⟨"", [LOADrec.joint "J" [2 * 10, 2 * 0, 2 * 0, 2 * 0, 2 * 0, 2 * 0] "",
            LOADrec.joint "J" [-1 * 0, -1 * 0, -1 * 5, -1 * 0, -1 * 0, -1 * 0] ""]⟩ := rfl
    rw [hmid]
    norm_num

theorem pySlice_take (l : String) (a b c : Nat) (h : b ≤ c) :
    pySlice l a b = ((pySlice l a c).toList.take (b - a)).asString := by
  unfold pySlice
  rw [List.toList_asString, List.take_take]
  congr 2
  omega

/-- C6 (amended): a `PSTIF` record whose stiffener type is not `ANG` does
raise a distinct error — `AssertionError("Only ANG stiffeners are
currently supported")` — but nothing in `parse_sacs_file` catches it: the
line dispatcher turns that single malformed record into an abort of the
whole parse, whatever was decoded before is lost and no structure is
returned. -/
theorem pstif_assert_aborts_parse (stru : SacsStru) (raw : String)
    (h5 : pySlice (pad80 raw) 0 5 = "PSTIF")
    (hbare : pyStripStr (pad80 raw) ≠ "PSTIF")
    (hnew : dictGet stru.sects (pyStripStr (pySlice (pad80 raw) 10 17)) = none)
    (hang : pyStripStr (pySlice (pad80 raw) 6 9) ≠ "ANG") :
    parseSacsLine stru raw
      = Except.error (PyError.assertionError "Only ANG stiffeners are currently supported") := by
  have hM : pySlice (pad80 raw) 0 6 ≠ "MEMBER" := by
    intro hm
    have h05 := pySlice_take (pad80 raw) 0 5 6 (by omega)
    rw [hm] at h05
    rw [h5] at h05
    exact absurd h05 (by decide)
  have hS : pySlice (pad80 raw) 0 4 ≠ "SECT" := by
    intro hs
    have h04 := pySlice_take (pad80 raw) 0 4 5 (by omega)
    rw [hs, h5] at h04
    exact absurd h04 (by decide)
  have hJ : pySlice (pad80 raw) 0 5 ≠ "JOINT" := by rw [h5]; decide
  have hP : pySlice (pad80 raw) 0 5 ≠ "PLATE" := by rw [h5]; decide
  simp only [parseSacsLine, h5, hbare, hnew, hJ, hM, hP, hS]
  simp only [PSTIF.ofLine, hang]
  simp
  intro hcontr
  exact absurd hcontr hbare

/-- Witness for `pstif_assert_aborts_parse` at the line `PSTIF PLT` and
the empty class state. -/
theorem pstif_assert_aborts_parse_witness :
    (pySlice (pad80 "PSTIF PLT") 0 5 = "PSTIF"
      ∧ pyStripStr (pad80 "PSTIF PLT") ≠ "PSTIF"
      ∧ dictGet initialClassState.sects
          (pyStripStr (pySlice (pad80 "PSTIF PLT") 10 17)) = none
      ∧ pyStripStr (pySlice (pad80 "PSTIF PLT") 6 9) ≠ "ANG")
    ∧ parseSacsLine initialClassState "PSTIF PLT"
      = Except.error (PyError.assertionError "Only ANG stiffeners are currently supported") := by
  have h1 : pySlice (pad80 "PSTIF PLT") 0 5 = "PSTIF" := rfl
  have h2 : pyStripStr (pad80 "PSTIF PLT") ≠ "PSTIF" := by decide
  have h3 : dictGet initialClassState.sects
      (pyStripStr (pySlice (pad80 "PSTIF PLT") 10 17)) = none := rfl
  have h4 : pyStripStr (pySlice (pad80 "PSTIF PLT") 6 9) ≠ "ANG" := by decide
  exact ⟨⟨h1, h2, h3, h4⟩, pstif_assert_aborts_parse initialClassState "PSTIF PLT" h1 h2 h3 h4⟩

/-- C6 counterexample: one well-formed `JOINT` line followed by one
non-angle `PSTIF` line.  The claim says the malformed record never aborts
the conversion and `parse_sacs_file` still returns a structure holding the
other records; in fact the whole parse returns the `AssertionError` and
no structure at all. -/
theorem pstif_abort_cex :
    parseSacsLines ["JOINT J001    1.0    2.0    3.0", "PSTIF PLT"] initialClassState
      = Except.error (PyError.assertionError "Only ANG stiffeners are currently supported") := by
  rfl

theorem mergeGo_first_degenerate (s : SacsStru) (mid : String) (m : MEMBER)
    (rest : List (String × MEMBER)) (jA jB : JOINT) (entry : ℕ × String)
    (hA : dictGet s.joints m.jointA = some jA)
    (hB : dictGet s.joints m.jointB = some jB)
    (hx : jA.x = jB.x) (hy : jA.y = jB.y) (hz : jA.z = jB.z)
    (he : s.nmap.get? (jB.ABQID - 1) = some entry) :
    mergeSmallMembersGo s ((mid, m) :: rest)
      = Except.error (PyError.attributeError "append") := by
  have hv : jA.asVec.sub jB.asVec = ⟨0, 0, 0⟩ := by
    ext <;> simp [JOINT.asVec, Vec3.sub, hx, hy, hz]
  have hlen : (jA.asVec.sub jB.asVec).length < (1 / 1000000 : ℝ) := by
    rw [hv, Vec3.length]
    have h0 : Vec3.dot ⟨0, 0, 0⟩ ⟨0, 0, 0⟩ = 0 := by
      simp [Vec3.dot]
    rw [h0, Real.sqrt_zero]
    norm_num
  simp only [mergeSmallMembersGo, hA, hB]
  rw [if_pos hlen, he]
  rfl

/-- C5: on a fully parsed structure holding one zero-length member,
`merge_small_members` does not reassign the B joint's id or annotate the
node map — it raises `AttributeError` at
`self.nmap[...].append(...)`, because `parse_sacs_file` stores `nmap`
entries as immutable tuples (the legacy script stored lists).  The
annotation call sits before the id reassignment, so neither effect of the
claim ever happens. -/
theorem merge_small_members_tuple_append_error :
    parseSacsLines c5Lines initialClassState = Except.ok c5Stru
      ∧ mergeSmallMembers c5Stru = Except.error (PyError.attributeError "append") := by
  refine ⟨rfl, ?_⟩
  have hm : c5Stru.members
      = [("J001J002", MEMBER.ofLine (pad80 "MEMBER J001J002"))] := rfl
  unfold mergeSmallMembers
  rw [hm]
  exact mergeGo_first_degenerate c5Stru "J001J002" _ []
    (JOINT.ofLine (pad80 "JOINT J001    1.0    2.0    3.0") 1)
    (JOINT.ofLine (pad80 "JOINT J002    1.0    2.0    3.0") 2)
    (2, "J002") rfl rfl rfl rfl rfl rfl

/-- C7 counterexample: the malformed field `"ABC"` decodes to the sentinel
(no exception), but at the `JOINT.__init__` coordinate call site the
sentinel is coerced to `0` and the resulting coordinate **equals** that of
a joint whose field parsed as `0.0` — and at the `SECT` stiffness-override
call sites both a failed decode and a decoded zero become `None`.  The
absent value does not remain distinguishable from a parsed zero. -/
theorem getFloat_sentinel_indistinguishable_cex :
    GetFloat "ABC" = none
      ∧ GetFloat "0.0" = some 0
      ∧ (JOINT.ofLine (pad80 "JOINT J001    ABC    2.0    3.0") 1).x
          = (JOINT.ofLine (pad80 "JOINT J001    0.0    2.0    3.0") 1).x
      ∧ orNoneScaled "ABC" (1 / 10000) = orNoneScaled "0.0" (1 / 10000) := by
  have hz : GetFloat "0.0" = some 0 := by
    have h : GetFloat "0.0" = some (((0 : ℕ) : ℚ) + ((0 : ℕ) : ℚ) / 10 ^ 1) := rfl
    rw [h]
    norm_num
  refine ⟨rfl, hz, ?_, ?_⟩
  · have hl : (JOINT.ofLine (pad80 "JOINT J001    ABC    2.0    3.0") 1).x
        = (0 : ℚ) + 0 * (1 / 100) := rfl
    have hr : (JOINT.ofLine (pad80 "JOINT J001    0.0    2.0    3.0") 1).x
        = (((0 : ℕ) : ℚ) + ((0 : ℕ) : ℚ) / 10 ^ 1) + 0 * (1 / 100) := rfl
    rw [hl, hr]
    norm_num
  · have h1 : pyNum (GetFloat "ABC") * (1 / 10000 : ℚ) = 0 := by
      rw [show GetFloat "ABC" = none from rfl]
      norm_num [pyNum]
    have h2 : pyNum (GetFloat "0.0") * (1 / 10000 : ℚ) = 0 := by
      rw [hz]
      norm_num [pyNum]
    unfold orNoneScaled
    rw [if_pos h1, if_pos h2]

/-- C7 (amended): for a malformed fixed-width numeric field the decoder
returns the `False` sentinel and never raises; but the sentinel does not
propagate as a distinguishable "no value": at the `JOINT.__init__`
coordinate call sites `False` is coerced to `0`, giving exactly the
coordinate a zero-parsing field gives, and at the `SECT` stiffness
call sites (`GetFloat(...) * factor or None`) a failed decode and a
parsed zero both become `None`. -/
theorem getFloat_sentinel_coerces_to_zero (bad zero off : String)
    (hbad : GetFloat bad = none) (hzero : GetFloat zero = some 0) :
    jointCoord bad off = jointCoord zero off
      ∧ ∀ u : ℚ, orNoneScaled bad u = orNoneScaled zero u := by
  constructor
  · simp [jointCoord, hbad, hzero, pyNum]
  · intro u
    simp [orNoneScaled, hbad, hzero, pyNum]

/-- Witness for `getFloat_sentinel_coerces_to_zero` at the malformed field
`"ABC"` and the zero field `"0.0"`. -/
theorem getFloat_sentinel_coerces_to_zero_witness :
    (GetFloat "ABC" = none ∧ GetFloat "0.0" = some 0)
    ∧ (jointCoord "ABC" "" = jointCoord "0.0" ""
      ∧ ∀ u : ℚ, orNoneScaled "ABC" u = orNoneScaled "0.0" u) := by
  have hbad : GetFloat "ABC" = none := rfl
  have hzero : GetFloat "0.0" = some 0 := by
    have h : GetFloat "0.0" = some (((0 : ℕ) : ℚ) + ((0 : ℕ) : ℚ) / 10 ^ 1) := rfl
    rw [h]
    norm_num
  exact ⟨⟨hbad, hzero⟩, getFloat_sentinel_coerces_to_zero "ABC" "0.0" "" hbad hzero⟩

/-- C8: the duplicate-`SECT` guard compares the **unstripped** seven-column
slice `l[5:12]` against keys stored **stripped**, so for any section ID
shorter than the full field the guard never matches and a second `SECT`
line with the same ID silently overwrites the first: after parsing the two
lines below, the stored section for `SEC1` is the second decode (a `BOX`),
not the first (`TUB`, i.e. shape `PIPE`) — last occurrence wins, not
first.  (The `PSTIF` branch strips before its membership test, line 643,
which is what this guard was meant to do.) -/
theorem sect_duplicate_overwrites :
    ((parseSacsLines ["SECT SEC1      TUB", "SECT SEC1      BOX"]
        initialClassState).map (fun s => dictGet s.sects "SEC1"))
      = Except.ok (some (SECTENTRY.sect (SECT.ofLine (pad80 "SECT SEC1      BOX"))))
    ∧ SECT.tag (SECT.ofLine (pad80 "SECT SEC1      BOX")) = some "BOX"
    ∧ SECT.tag (SECT.ofLine (pad80 "SECT SEC1      TUB")) = some "PIPE"
    ∧ SECT.ofLine (pad80 "SECT SEC1      BOX") ≠ SECT.ofLine (pad80 "SECT SEC1      TUB") := by
  refine ⟨rfl, rfl, rfl, ?_⟩
  intro h
  have htag := congrArg SECT.tag h
  rw [show SECT.tag (SECT.ofLine (pad80 "SECT SEC1      BOX")) = some "BOX" from rfl,
      show SECT.tag (SECT.ofLine (pad80 "SECT SEC1      TUB")) = some "PIPE" from rfl] at htag
  exact absurd htag (by decide)

/-- C10: the record containers of `SacsStructure` are class-level
attributes shared by every instance, while the node-id counter is rebound
per instance.  Concretely: parsing a second file through a second
`SacsStructure()` (same class state) yields a joint table and node map
holding the records of **both** runs, while both runs assign target node
id 1 — their ids collide (the final `abq_n` of the second instance is 1,
not 2).  The second conjunct states the per-instance counter reset: the
class-state `abq_n` handed to a parse is ignored. -/
theorem parse_shared_state_collision :
    ((parseSacsLines ["JOINT J001    1.0    2.0    3.0"] initialClassState).bind
        (parseSacsLines ["JOINT J002    4.0    5.0    6.0"])).map
        (fun s2 => (s2.joints.map Prod.fst, s2.nmap, s2.abq_n))
      = Except.ok (["J001", "J002"], [(1, "J001"), (1, "J002")], 1)
    ∧ ∀ lines st n, parseSacsLines lines { st with abq_n := n } = parseSacsLines lines st := by
  exact ⟨rfl, fun lines st n => rfl⟩
